import Mathlib

/-!
Shallow embedding of `src/dexbot.py` (SolanaDexBot, SecurityManager) and
verification of the specification's claims about it.

Modelling conventions:
- Python floats are modelled as rationals (`ℚ`); all comparisons in the
  source are order comparisons against small decimal literals, which the
  rational model reflects faithfully.
- Python dictionaries coming from JSON responses are modelled as structures
  whose possibly-missing keys are `Option` fields; a missing-key access
  (`KeyError` / `IndexError`) is an `Except.error`.
- A raised Python exception is an `Except.error` carrying the message.
- External I/O responses (the Jupiter quote and swap responses) are inputs
  of the embedded functions: the embedding is the pipeline's decision logic
  with the environment's answers held as parameters.
-/

/-- Token data as produced by `SolanaDexBot._fetch_token_data`: the fields
the analysis functions read. -/
structure TokenData where
  address : String
  liquidity : ℚ
  volume : ℚ
  creator_burns : ℤ
  program_id : String
  created_at : ℤ
deriving Repr, DecidableEq

/-- The `risk_params` sub-dictionary of `SolanaDexBot.__init__`'s config. -/
structure RiskParams where
  min_liquidity : ℚ
  max_creator_burns : ℤ
  verified_programs : Bool
deriving Repr, DecidableEq

/-- The static configuration built in `SolanaDexBot.__init__`. -/
structure Config where
  dex_programs : List (String × String)
  risk_params : RiskParams
deriving Repr, DecidableEq

/-- The literal configuration of `SolanaDexBot.__init__` (`self.config`). -/
def defaultConfig : Config :=
  { dex_programs :=
      [("raydium", "675kPX9MHTjS2zt1qfr1NYHuzeLXfQM9H24wFSUt1Mp8"),
       ("orca", "9W959DqEETiGZocYWCQPaJ6sBmUzgfxXfqGeTEdap3XV")]
    risk_params :=
      { min_liquidity := 5000
        max_creator_burns := 3
        verified_programs := true } }

/-- State of `SecurityManager`: the two blacklist sets built by
`_load_blacklist`, modelled as lists of strings. -/
structure SecurityManager where
  HoneyPotTokens : List String
  KnownScamWallets : List String
deriving Repr, DecidableEq

/-- `SecurityManager._load_blacklist`: returns both sets empty. -/
def load_blacklist : SecurityManager :=
  { HoneyPotTokens := [], KnownScamWallets := [] }

/-- `SecurityManager.verify_wallet`: `wallet not in blacklist['KnownScamWallets']`. -/
def verify_wallet (s : SecurityManager) (wallet : String) : Bool :=
  !(s.KnownScamWallets.contains wallet)

/-- One element of a quote's `marketInfos` list; its `amm` key may be
missing. -/
structure MarketInfo where
  amm : Option String
deriving Repr, DecidableEq

/-- A Jupiter quote response as read by `SecurityManager.validate_quote`:
the `priceImpactPct` key (possibly missing) and the `marketInfos` list. -/
structure Quote where
  priceImpactPct : Option ℚ
  marketInfos : List MarketInfo
deriving Repr, DecidableEq

/-- The second conjunct of `validate_quote`:
`quote['marketInfos'][0]['amm'] == 'Raydium'`, faulting when the list is
empty or the `amm` key is absent. -/
def ammCheck (q : Quote) : Except String Bool :=
  match q.marketInfos.head? with
  | none => Except.error "IndexError: marketInfos"
  | some m =>
    match m.amm with
    | none => Except.error "KeyError: amm"
    | some a => Except.ok (a == "Raydium")

/-- `SecurityManager.validate_quote`:
`quote['priceImpactPct'] < 0.1 and quote['marketInfos'][0]['amm'] == 'Raydium'`.
Python's `and` short-circuits: when the first conjunct is false the second
is never evaluated, so `marketInfos` is only inspected when
`priceImpactPct < 0.1`. Missing keys fault. -/
def validate_quote (q : Quote) : Except String Bool :=
  match q.priceImpactPct with
  | none => Except.error "KeyError: priceImpactPct"
  | some p =>
    if p < 1/10 then ammCheck q
    else Except.ok false

/-- The swap response returned by the Jupiter `/swap` endpoint, as read by
`execute_swap`: only the `swapTransaction` key (possibly missing) is used. -/
structure SwapResponse where
  swapTransaction : Option String
deriving Repr, DecidableEq

/-- `SolanaDexBot._sign_and_send`: unconditionally returns the constant
simulated transaction identifier. -/
def sign_and_send (transaction : String) (wallet : String) : String :=
  "SIMULATED_TX_ID"

/-- Checks `execute_swap` can perform on the way to submission; used to
instrument the pipeline so that "no path submits without check X" is
statable. `riskVerdictPassed` is vocabulary for the specification's risk
check; the source emits it on no path. -/
inductive CheckEvent where
  | walletVerified
  | riskVerdictPassed
  | quoteValidated
deriving Repr, DecidableEq

/-- `SolanaDexBot.execute_swap`, instrumented with the list of checks that
passed during the run. Control flow of the source:
raise on `verify_wallet` failure; fetch the quote (environment input
`quoteResp`); raise on `validate_quote` failure (a fault inside
`validate_quote` propagates); fetch the swap response (environment input
`swapResp`); read `swap_data['swapTransaction']`; `_sign_and_send`. -/
def execute_swap_trace (sec : SecurityManager) (quoteResp : Quote)
    (swapResp : SwapResponse) (user_wallet : String) (token_in : String)
    (amount : ℚ) : Except String String × List CheckEvent :=
  if !(verify_wallet sec user_wallet) then
    (Except.error "Wallet verification failed", [])
  else
    match validate_quote quoteResp with
    | Except.error e => (Except.error e, [CheckEvent.walletVerified])
    | Except.ok false =>
      (Except.error "Invalid swap quote", [CheckEvent.walletVerified])
    | Except.ok true =>
      match swapResp.swapTransaction with
      | none =>
        (Except.error "KeyError: swapTransaction",
         [CheckEvent.walletVerified, CheckEvent.quoteValidated])
      | some tx =>
        (Except.ok (sign_and_send tx user_wallet),
         [CheckEvent.walletVerified, CheckEvent.quoteValidated])

/-- `SolanaDexBot.execute_swap`: the returned value (or raised exception)
alone, without the instrumentation trace. -/
def execute_swap (sec : SecurityManager) (quoteResp : Quote)
    (swapResp : SwapResponse) (user_wallet : String) (token_in : String)
    (amount : ℚ) : Except String String :=
  (execute_swap_trace sec quoteResp swapResp user_wallet token_in amount).1

/-- `SolanaDexBot._check_liquidity`:
`'high' if token['liquidity'] > self.config['risk_params']['min_liquidity'] else 'low'`. -/
def check_liquidity (cfg : Config) (token : TokenData) : String :=
  if token.liquidity > cfg.risk_params.min_liquidity then "high" else "low"

/-- `SolanaDexBot._check_program_risk`:
`'verified' if token['program_id'] in self.config['dex_programs'].values() else 'unverified'`. -/
def check_program_risk (cfg : Config) (token : TokenData) : String :=
  if (cfg.dex_programs.map Prod.snd).contains token.program_id then
    "verified"
  else "unverified"

/-- `SolanaDexBot._check_creator_behavior`:
`'high'` if `creator_burns > max_creator_burns`, else `'low'`. -/
def check_creator_behavior (cfg : Config) (token : TokenData) : String :=
  if token.creator_burns > cfg.risk_params.max_creator_burns then "high"
  else "low"

/-- The analysis dictionary built inside `SolanaDexBot.analyze_token`. -/
structure Analysis where
  rug_risk : String
  liquidity_risk : String
  program_risk : String
  creator_risk : String
deriving Repr, DecidableEq

/-- The in-memory state of a `SolanaDexBot` instance that the analysis and
swap paths read: its static config and its `SecurityManager`. -/
structure SolanaDexBot where
  config : Config
  security : SecurityManager
deriving Repr, DecidableEq

/-- `SolanaDexBot.analyze_token` applied to already-fetched token data
(the fetch is external I/O; its result is the `token` parameter). Returns
the merged dictionary `{**token_data, **analysis}`, modelled as the pair of
the token data and the analysis dictionary (their key sets are disjoint).
`rug_risk` is the hard-coded string `'low'`. -/
def SolanaDexBot.analyze_token (bot : SolanaDexBot) (token : TokenData) :
    TokenData × Analysis :=
  (token,
   { rug_risk := "low"
     liquidity_risk := check_liquidity bot.config token
     program_risk := check_program_risk bot.config token
     creator_risk := check_creator_behavior bot.config token })

/-- A bot as built by `SolanaDexBot.__init__`: the literal config and a
fresh `SecurityManager` (whose `_load_blacklist` returns empty sets). -/
def initBot : SolanaDexBot :=
  { config := defaultConfig, security := load_blacklist }

/-! ## Concrete fixtures used by counterexamples and witnesses -/

/-- A quote every check of `validate_quote` accepts: small price impact,
first route hop on Raydium. -/
def raydiumQuote : Quote :=
  { priceImpactPct := some (1/100), marketInfos := [{ amm := some "Raydium" }] }

/-- A swap response carrying a `swapTransaction` payload. -/
def goodSwapResponse : SwapResponse := { swapTransaction := some "BASE64TX" }

/-- A security state with one wallet in `KnownScamWallets`. -/
def scamWalletState : SecurityManager :=
  { HoneyPotTokens := [], KnownScamWallets := ["SCAM"] }

/-- A bot whose `SecurityManager` blacklists the token address `EVIL`. -/
def evilListedBot : SolanaDexBot :=
  { config := defaultConfig
    security := { HoneyPotTokens := ["EVIL"], KnownScamWallets := [] } }

/-- Benign token data at the blacklisted address `EVIL`: ample data, low
burns, a known AMM program id. -/
def evilToken : TokenData :=
  { address := "EVIL", liquidity := 100, volume := 50, creator_burns := 0
    program_id := "675kPX9MHTjS2zt1qfr1NYHuzeLXfQM9H24wFSUt1Mp8"
    created_at := 0 }

/-! ## Helper evaluations -/

/-- On the empty `KnownScamWallets` set of `_load_blacklist`, every wallet
verifies. -/
theorem verify_wallet_empty (w : String) :
    verify_wallet load_blacklist w = true := rfl

/-- `validate_quote` accepts the Raydium fixture quote. -/
theorem validate_quote_raydium : validate_quote raydiumQuote = Except.ok true := by
  have h : (1/100 : ℚ) < 1/10 := by norm_num
  simp only [validate_quote, raydiumQuote, h, if_true, ammCheck, List.head?]
  rfl

/-- Full evaluation of the happy path of `execute_swap_trace` on the
fixture quote and swap response, for any wallet that verifies. -/
theorem execute_swap_trace_good (sec : SecurityManager) (w tok : String)
    (a : ℚ) (hw : verify_wallet sec w = true) :
    execute_swap_trace sec raydiumQuote goodSwapResponse w tok a =
      (Except.ok "SIMULATED_TX_ID",
       [CheckEvent.walletVerified, CheckEvent.quoteValidated]) := by
  simp [execute_swap_trace, hw, validate_quote_raydium, goodSwapResponse,
    sign_and_send]

/-! ## Claims -/

/-- C1 (counterexample): a concrete run of `execute_swap` returns the
submitted transaction id while its trace records no passing risk verdict —
the pipeline contains no risk check at all, refuting the claim that a
submitted result requires one. -/
theorem c1_submits_without_risk_check :
    (execute_swap_trace load_blacklist raydiumQuote goodSwapResponse
        "alice" "TOKEN" (1/100)).1 = Except.ok "SIMULATED_TX_ID" ∧
    CheckEvent.riskVerdictPassed ∉
      (execute_swap_trace load_blacklist raydiumQuote goodSwapResponse
        "alice" "TOKEN" (1/100)).2 := by
  rw [execute_swap_trace_good load_blacklist "alice" "TOKEN" (1/100)
    (verify_wallet_empty "alice")]
  exact ⟨rfl, by decide⟩

/-- C1 (amended): a submitted result requires only the two checks the code
actually performs — on every path on which `execute_swap` returns a
transaction id, wallet verification and quote validation both passed; no
risk-verdict check exists in the pipeline. -/
theorem c1_submit_requires_wallet_and_quote_checks
    (sec : SecurityManager) (q : Quote) (s : SwapResponse)
    (w tok : String) (a : ℚ) (r : String)
    (h : (execute_swap_trace sec q s w tok a).1 = Except.ok r) :
    CheckEvent.walletVerified ∈ (execute_swap_trace sec q s w tok a).2 ∧
    CheckEvent.quoteValidated ∈ (execute_swap_trace sec q s w tok a).2 := by
  unfold execute_swap_trace at *
  cases hw : verify_wallet sec w with
  | false => simp [hw] at h
  | true =>
    cases hv : validate_quote q with
    | error e => simp [hw, hv] at h
    | ok b =>
      cases b with
      | false => simp [hw, hv] at h
      | true =>
        cases hs : s.swapTransaction with
        | none => simp [hw, hv, hs] at h
        | some tx => simp [hw, hv, hs]

/-- C1 (witness): the amended theorem applied at a concrete successful
run. -/
theorem c1_witness :
    CheckEvent.walletVerified ∈
      (execute_swap_trace load_blacklist raydiumQuote goodSwapResponse
        "alice" "TOKEN" (1/100)).2 ∧
    CheckEvent.quoteValidated ∈
      (execute_swap_trace load_blacklist raydiumQuote goodSwapResponse
        "alice" "TOKEN" (1/100)).2 :=
  c1_submit_requires_wallet_and_quote_checks load_blacklist raydiumQuote
    goodSwapResponse "alice" "TOKEN" (1/100) "SIMULATED_TX_ID"
    (by rw [execute_swap_trace_good load_blacklist "alice" "TOKEN" (1/100)
      (verify_wallet_empty "alice")])

/-- C2 (counterexample): a token whose address is in the
`HoneyPotTokens` blacklist is analysed exactly like any other token: the
verdict produced by `analyze_token` carries no blacklisted marking (its
fields are exactly the four dimension strings) and every field is the
benign value — nothing is forced to `high`, so no composite derived from
the verdict can be `high`. -/
theorem c2_blacklisted_token_scores_low :
    evilListedBot.security.HoneyPotTokens.contains evilToken.address = true ∧
    (evilListedBot.analyze_token evilToken).2 =
      { rug_risk := "low", liquidity_risk := "low"
        program_risk := "verified", creator_risk := "low" } := by
  constructor
  · decide
  · have h : ¬ ((100 : ℚ) > 5000) := by norm_num
    simp only [SolanaDexBot.analyze_token, evilListedBot, evilToken,
      defaultConfig, check_liquidity, check_program_risk,
      check_creator_behavior, h, if_false]
    decide

/-- C2 (amended): `analyze_token` never consults the blacklist: its result
is unchanged under any replacement of the bot's `SecurityManager` state,
and its overall `rug_risk` field is the constant `"low"` for every input. -/
theorem c2_analysis_ignores_blacklist (b : SolanaDexBot)
    (sec : SecurityManager) (t : TokenData) :
    SolanaDexBot.analyze_token { config := b.config, security := sec } t =
      b.analyze_token t ∧
    (b.analyze_token t).2.rug_risk = "low" :=
  ⟨rfl, rfl⟩

/-- C3 (counterexample): a trade of amount 0.5, far above the claimed
0.1 cap, with every other input valid, is not rejected with
`AmountExceedsLimit`: `execute_swap` submits it and returns the
transaction id. -/
theorem c3_oversized_trade_not_rejected :
    (1/2 : ℚ) > 1/10 ∧
    execute_swap load_blacklist raydiumQuote goodSwapResponse
      "alice" "TOKEN" (1/2) = Except.ok "SIMULATED_TX_ID" := by
  refine ⟨by norm_num, ?_⟩
  unfold execute_swap
  rw [execute_swap_trace_good load_blacklist "alice" "TOKEN" (1/2)
    (verify_wallet_empty "alice")]

/-- C3 (amended): the pipeline applies no per-trade amount cap at all: the
outcome of `execute_swap` is independent of the requested amount (the
amount only parameterises the quote request sent to the environment). -/
theorem c3_no_amount_cap (sec : SecurityManager) (q : Quote)
    (s : SwapResponse) (w tok : String) (a₁ a₂ : ℚ) :
    execute_swap sec q s w tok a₁ = execute_swap sec q s w tok a₂ := rfl

/-- C4 (code bug): `_check_liquidity` inverts the specified rule. At the
claim's own scenario (liquidityUsd 30000, minLiquidity 25000) the code
returns `liquidity_risk = "high"` where the claim requires `"low"`, and at
liquidity 100 — far below the minimum — it returns `"low"` where the claim
requires `"high"`: the comparison `liquidity > min_liquidity` flags
abundant liquidity as high risk. -/
theorem c4_liquidity_rule_inverted :
    (check_liquidity
      { defaultConfig with risk_params :=
          { min_liquidity := 25000, max_creator_burns := 3
            verified_programs := true } }
      { evilToken with liquidity := 30000 } = "high") ∧
    (check_liquidity
      { defaultConfig with risk_params :=
          { min_liquidity := 25000, max_creator_burns := 3
            verified_programs := true } }
      { evilToken with liquidity := 100 } = "low") := by
  constructor
  · have h : ((30000 : ℚ) > 25000) := by norm_num
    simp [check_liquidity, h]
  · have h : ¬ ((100 : ℚ) > 25000) := by norm_num
    simp [check_liquidity, h]

/-- C5: the price-impact gate of `validate_quote` is strict at the
threshold: any quote whose `priceImpactPct` is at least 0.10 — including
exactly 0.10 — is rejected (the call returns `False`, never consulting the
route), and any quote strictly below 0.10 passes the price-impact conjunct,
the outcome then being exactly the route check `ammCheck`. -/
theorem c5_price_impact_threshold (q : Quote) (p : ℚ)
    (hp : q.priceImpactPct = some p) :
    (1/10 ≤ p → validate_quote q = Except.ok false) ∧
    (p < 1/10 → validate_quote q = ammCheck q) := by
  constructor <;> intro h
  · simp only [validate_quote, hp]
    rw [if_neg (not_lt.mpr h)]
  · simp only [validate_quote, hp]
    rw [if_pos h]

/-- C5 (witness): the boundary case — a quote with `priceImpactPct`
exactly 0.10 is rejected. -/
theorem c5_witness :
    validate_quote { priceImpactPct := some (1/10), marketInfos := [] } =
      Except.ok false :=
  (c5_price_impact_threshold
      { priceImpactPct := some (1/10), marketInfos := [] } (1/10) rfl).1
    (le_refl (1/10 : ℚ))

/-- C6 (counterexample): when the code's only caller-identity gate fails —
the wallet is in `KnownScamWallets` — `execute_swap` does not return a
failed result with reason `AuthenticationRequired`: it raises the
exception `Wallet verification failed` (there is no session concept in the
code at all). -/
theorem c6_no_authentication_required_reason :
    execute_swap scamWalletState raydiumQuote goodSwapResponse
      "SCAM" "TOKEN" (1/100) = Except.error "Wallet verification failed" ∧
    "Wallet verification failed" ≠ "AuthenticationRequired" := by
  constructor
  · rfl
  · decide

/-- C6 (amended): when wallet verification fails — the code's only
caller-identity check, there being no sessions — `execute_swap` halts
immediately with the raised exception `Wallet verification failed`: no
quote validation, no submission, an empty check trace. -/
theorem c6_failed_wallet_halts_pipeline (sec : SecurityManager) (q : Quote)
    (s : SwapResponse) (w tok : String) (a : ℚ)
    (hw : verify_wallet sec w = false) :
    execute_swap_trace sec q s w tok a =
      (Except.error "Wallet verification failed", []) := by
  simp [execute_swap_trace, hw]

/-- C6 (witness): the amended theorem at the concrete scam-listed wallet. -/
theorem c6_witness :
    execute_swap_trace scamWalletState raydiumQuote goodSwapResponse
      "SCAM" "TOKEN" (1/100) =
      (Except.error "Wallet verification failed", []) :=
  c6_failed_wallet_halts_pipeline scamWalletState raydiumQuote
    goodSwapResponse "SCAM" "TOKEN" (1/100) (by decide)

/-- C7: the scoring operation is pure and deterministic: two bot instances
with the same static configuration — whatever their `SecurityManager`
state or other runtime history — produce identical verdicts on an
identical token snapshot, so repeated calls on identical inputs agree. -/
theorem c7_analyze_token_deterministic (b₁ b₂ : SolanaDexBot)
    (t : TokenData) (h : b₁.config = b₂.config) :
    b₁.analyze_token t = b₂.analyze_token t := by
  unfold SolanaDexBot.analyze_token
  rw [h]

/-- C7 (witness): two bots sharing `defaultConfig` but with different
security state score the fixture token identically. -/
theorem c7_witness :
    SolanaDexBot.analyze_token initBot evilToken =
      SolanaDexBot.analyze_token evilListedBot evilToken :=
  c7_analyze_token_deterministic initBot evilListedBot evilToken rfl

/-- C8: under the constructor state of `SecurityManager`
(`_load_blacklist` returns an empty `KnownScamWallets` set, and no
operation ever adds to it), `verify_wallet` accepts every wallet string,
so the wallet gate of `execute_swap` passes on every run: every trace
records the wallet check as passed. -/
theorem c8_wallet_gate_never_blocks (w tok : String) (q : Quote)
    (s : SwapResponse) (a : ℚ) :
    verify_wallet load_blacklist w = true ∧
    CheckEvent.walletVerified ∈
      (execute_swap_trace load_blacklist q s w tok a).2 := by
  refine ⟨rfl, ?_⟩
  unfold execute_swap_trace
  simp only [verify_wallet_empty, Bool.not_true, Bool.false_eq_true,
    if_false]
  cases hv : validate_quote q with
  | error e => simp
  | ok b =>
    cases b with
    | false => simp
    | true =>
      cases hs : s.swapTransaction with
      | none => simp
      | some tx => simp

/-- C9: whenever `execute_swap` completes without raising, the value it
returns is the constant `"SIMULATED_TX_ID"` produced by `_sign_and_send`:
no real signing or submission occurs, and the returned id is the same for
every wallet, token, amount and environment response. -/
theorem c9_success_returns_simulated_id (sec : SecurityManager) (q : Quote)
    (s : SwapResponse) (w tok : String) (a : ℚ) (r : String)
    (h : execute_swap sec q s w tok a = Except.ok r) :
    r = "SIMULATED_TX_ID" := by
  unfold execute_swap execute_swap_trace at h
  cases hw : verify_wallet sec w with
  | false => simp [hw] at h
  | true =>
    cases hv : validate_quote q with
    | error e => simp [hw, hv] at h
    | ok b =>
      cases b with
      | false => simp [hw, hv] at h
      | true =>
        cases hs : s.swapTransaction with
        | none => simp [hw, hv, hs] at h
        | some tx =>
          simp [hw, hv, hs, sign_and_send] at h
          exact h.symm

/-- C9 (witness): the theorem applied at a concrete completing run. -/
theorem c9_witness :
    execute_swap load_blacklist raydiumQuote goodSwapResponse
      "alice" "TOKEN" (1/100) = Except.ok "SIMULATED_TX_ID" ∧
    ("SIMULATED_TX_ID" : String) = "SIMULATED_TX_ID" := by
  have h : execute_swap load_blacklist raydiumQuote goodSwapResponse
      "alice" "TOKEN" (1/100) = Except.ok "SIMULATED_TX_ID" := by
    unfold execute_swap
    rw [execute_swap_trace_good load_blacklist "alice" "TOKEN" (1/100)
      (verify_wallet_empty "alice")]
  exact ⟨h, c9_success_returns_simulated_id load_blacklist raydiumQuote
    goodSwapResponse "alice" "TOKEN" (1/100) "SIMULATED_TX_ID" h⟩

/-- C10 (counterexample): a quote with an empty `marketInfos` list does
not necessarily fault: with `priceImpactPct = 0.5` the first conjunct of
`validate_quote` is already false, Python's `and` short-circuits, and the
call returns the boolean `False` without touching `marketInfos`. -/
theorem c10_empty_route_can_return_bool :
    validate_quote { priceImpactPct := some (1/2), marketInfos := [] } =
      Except.ok false := by
  have h : ¬ ((1/2 : ℚ) < 1/10) := by norm_num
  simp only [validate_quote]
  rw [if_neg h]

/-- C10 (amended): `validate_quote` always requires the `priceImpactPct`
key (missing ⇒ fault); it inspects `marketInfos` only when
`priceImpactPct < 0.1`, so a non-empty route with an `amm` key on the
first hop is a precondition exactly in that case — empty `marketInfos`
then faults — while `priceImpactPct ≥ 0.1` returns `False` without
touching the route. -/
theorem c10_partial_domain (q : Quote) :
    (q.priceImpactPct = none →
      validate_quote q = Except.error "KeyError: priceImpactPct") ∧
    (∀ p : ℚ, q.priceImpactPct = some p → p < 1/10 → q.marketInfos = [] →
      validate_quote q = Except.error "IndexError: marketInfos") ∧
    (∀ p : ℚ, q.priceImpactPct = some p → 1/10 ≤ p →
      validate_quote q = Except.ok false) := by
  refine ⟨fun hn => by simp [validate_quote, hn], fun p hp hlt hm => ?_,
    fun p hp hge => ?_⟩
  · simp only [validate_quote, hp]
    rw [if_pos hlt]
    simp [ammCheck, hm]
  · simp only [validate_quote, hp]
    rw [if_neg (not_lt.mpr hge)]

/-- C10 (witness): the amended theorem at concrete quotes — a missing
`priceImpactPct` key faults, and a low-impact quote with an empty route
faults with the index error. -/
theorem c10_witness :
    validate_quote { priceImpactPct := none, marketInfos := [] } =
      Except.error "KeyError: priceImpactPct" ∧
    validate_quote { priceImpactPct := some 0, marketInfos := [] } =
      Except.error "IndexError: marketInfos" :=
  ⟨(c10_partial_domain { priceImpactPct := none, marketInfos := [] }).1 rfl,
   (c10_partial_domain
      { priceImpactPct := some 0, marketInfos := [] }).2.1 0 rfl
     (by norm_num) rfl⟩
